import Mathlib

/-!
Verification of the request-admission and middleware pipeline of the
ai-meet-backend server (src/server.js).

The file shallowly embeds the pipeline configured in src/server.js:
the CORS origin callback, the tiered rate limiters, the JSON/urlencoded
body-size guard, the multer upload admission (fileFilter plus
limits.fileSize), the route dispatch order, the centralized error-handling
middleware and the terminal 404 responder.  Components whose code lives in
files not present under src (middleware/security.js, the route modules)
are modelled from the specification and marked as such in their doc
comments.
-/

namespace AiMeet

/-- Whether a character list starts with the given pattern. -/
def charsStartWith : List Char → List Char → Bool
  | _, [] => true
  | [], _ :: _ => false
  | c :: cs, p :: ps => c = p && charsStartWith cs ps

/-- Whether a character list contains the given pattern as a contiguous
run. -/
def charsContain : List Char → List Char → Bool
  | [], pat => pat.isEmpty
  | c :: cs, pat => charsStartWith (c :: cs) pat || charsContain cs pat

/-- Substring test mirroring JavaScript String.prototype.includes:
s.includes(pat) holds exactly when pat occurs contiguously in s. -/
def strIncludes (s pat : String) : Bool := charsContain s.data pat.data

/-- A JavaScript error value as observed by the error-handling middleware
at src/server.js:96-113: whether it is a multer MulterError, its code
field, and its message field (none models an absent/undefined message). -/
structure JsError where
  isMulterError : Bool
  code : Option String
  message : Option String
deriving DecidableEq, Repr

/-- A plain JavaScript Error carrying a message (new Error(msg)). -/
def mkError (msg : String) : JsError := ⟨false, none, some msg⟩

/-- The MulterError produced when limits.fileSize is exceeded: its code is
LIMIT_FILE_SIZE and its message is the multer constant. -/
def multerSizeError : JsError := ⟨true, some "LIMIT_FILE_SIZE", some "File too large"⟩

/-- The JSON error envelope produced by the error-handling middleware and
the 404 responder: an error string plus an optional details string
(details = none models the field being absent, as JSON serialization of
undefined drops the key). -/
structure ErrBody where
  error : String
  details : Option String
deriving DecidableEq, Repr

/-- The truthiness-guarded message test of src/server.js:105:
error.message exists and contains the pattern. -/
def msgIncludes (msg : Option String) (pat : String) : Bool :=
  match msg with
  | some m => strIncludes m pat
  | none => false

/-- The centralized error-handling middleware of src/server.js:96-113.
Input: the NODE_ENV value (none models an unset variable) and the error
value; output: the HTTP status and the JSON error envelope.
First match wins: multer LIMIT_FILE_SIZE, then a message containing
"Invalid file type", then the generic 500 envelope whose details field is
the original message exactly when NODE_ENV is development. -/
def errorHandler (env : Option String) (e : JsError) : Nat × ErrBody :=
  if e.isMulterError = true ∧ e.code = some "LIMIT_FILE_SIZE" then
    (400, ⟨"File too large. Maximum size is 10MB.", none⟩)
  else if msgIncludes e.message "Invalid file type" then
    (400, ⟨e.message.getD "", none⟩)
  else
    (500, ⟨"An unexpected error occurred. Please try again.",
      if env = some "development" then e.message else none⟩)

/-! ## Upload admission (multer configuration, src/server.js:55-74) -/

/-- The media-type allow-list of the multer fileFilter
(src/server.js:62-67). -/
def allowedTypes : List String :=
  ["text/plain", "text/markdown", "application/json", "text/csv"]

/-- The rejection message passed to cb by the fileFilter
(src/server.js:71). -/
def invalidFileTypeMessage : String :=
  "Invalid file type. Only .txt, .md, .json, and .csv files are allowed."

/-- The per-file size ceiling, limits.fileSize at src/server.js:59. -/
def fileSizeLimit : Nat := 10 * 1024 * 1024

/-- The fileFilter decision of src/server.js:61-73: accept exactly when the
declared mimetype is in the allow-list. -/
def fileFilterAccepts (mimetype : String) : Bool := allowedTypes.contains mimetype

/-- One multipart file part as the guard sees it: declared media type and
measured byte size. -/
structure FilePart where
  mimetype : String
  size : Nat
deriving DecidableEq, Repr

/-- Outcome of the multer admission of one file part. -/
inductive UploadOutcome where
  | accepted (f : FilePart)
  | rejectedFilter (msg : String)
  | rejectedSize
deriving DecidableEq, Repr

/-- The multer admission of one file part under the configuration of
src/server.js:56-74.  Multer invokes the configured fileFilter when the
headers of the part arrive, before any content is buffered; when the filter
passes an error to cb the upload aborts with that error.  Only parts the
filter accepted are streamed into memory, where the limits.fileSize bound
aborts with a MulterError of code LIMIT_FILE_SIZE once the content exceeds
the limit. -/
def multerAdmit (f : FilePart) : UploadOutcome :=
  if fileFilterAccepts f.mimetype then
    if fileSizeLimit < f.size then .rejectedSize else .accepted f
  else .rejectedFilter invalidFileTypeMessage

/-! ## CORS origin policy (src/server.js:25-41) -/

/-- The allowed-origin list computed at src/server.js:25-27: the
comma-separated CORS_ORIGIN variable, each entry trimmed, defaulting to
the single localhost origin when the variable is unset (none models a
missing or falsy CORS_ORIGIN value). -/
def allowedOriginsOf (corsOriginEnv : Option String) : List String :=
  match corsOriginEnv with
  | some s => (s.splitOn ",").map String.trim
  | none => ["http://localhost:3000"]

/-- The cors origin callback of src/server.js:30-39.  The origin argument
is the Origin header of the request; none models a missing (falsy) header,
which the callback admits unconditionally.  A present origin is admitted
exactly when it occurs in the allowed list (indexOf different from -1);
otherwise the callback produces an Error, which becomes a pipeline-level
error handled by the error middleware. -/
def corsDecision (allowed : List String) (origin : Option String) : Except String Unit :=
  match origin with
  | none => .ok ()
  | some o => if allowed.contains o then .ok () else .error "Not allowed by CORS"

/-- The credentials flag of the cors configuration (src/server.js:40). -/
def corsCredentials : Bool := true

/-! ## Rate limiter (spec-modelled) -/

/-- One rate-limit bucket: the request count in the current window and the
start time of the window. -/
structure Bucket where
  count : Nat
  windowStart : Nat
deriving DecidableEq, Repr

/-- Modelled from the spec: SecurityMiddleware.createRateLimiters lives in
middleware/security.js, which is not under src.  Section 4.3 of the spec
prescribes, per (route class, client) bucket, a fixed counting window of a
configured length with a configured maximum count: a request first rolls
the window over when it has elapsed, is admitted while the count is below
the maximum (incrementing it), and is rejected otherwise. -/
def admitBucket (windowLen maxCount now : Nat) (b : Bucket) : Bool × Bucket :=
  let b' := if b.windowStart + windowLen ≤ now then { count := 0, windowStart := now } else b
  if b'.count < maxCount then (true, { b' with count := b'.count + 1 }) else (false, b')

/-- Process a sequence of requests, given by their arrival times, against
one bucket, returning the admission verdicts in order and the final
bucket. -/
def processTimes (windowLen maxCount : Nat) (b : Bucket) : List Nat → List Bool × Bucket
  | [] => ([], b)
  | t :: ts =>
    let r := admitBucket windowLen maxCount t b
    let rest := processTimes windowLen maxCount r.2 ts
    (r.1 :: rest.1, rest.2)

/-! ## The pipeline (src/server.js:21-118) -/

/-- Modelled from the spec: SecurityMiddleware.configureHelmet and
createSecurityHeaders live in middleware/security.js, which is not under
src.  Section 4.2 of the spec prescribes a fixed set of protective
response headers (content-type sniffing prevention, frame-embedding
restriction, transport-security hints) attached by the first,
unconditional pipeline stage. -/
def securityHeaders : List (String × String) :=
  [("X-Content-Type-Options", "nosniff"),
   ("X-Frame-Options", "SAMEORIGIN"),
   ("Strict-Transport-Security", "max-age=15552000; includeSubDomains")]

/-- The body a response carries. -/
inductive Body where
  | empty
  | text (s : String)
  | errJson (e : ErrBody)
  | healthJson (time : Nat)
  | collabBody (s : String)
  | rateLimitMsg
deriving DecidableEq, Repr

/-- An HTTP response: status, accumulated headers, body.  Terminal stages
set status and body with res.status(...).json(...) or res.send(...), which
leave previously set headers in place. -/
structure Resp where
  status : Nat
  headers : List (String × String)
  body : Body
deriving DecidableEq, Repr

/-- The stage of the pipeline that terminated the request. -/
inductive Term where
  | origin
  | rateLimit
  | bodyTooLarge
  | route
  | routeError
  | health
  | root
  | notFound
deriving DecidableEq, Repr

/-- What an external collaborator route group does with a request it
receives: respond with some status and body, or fail with an error that
propagates to the error-handling middleware.  The collaborator code is
out of scope; the pipeline is verified for every possible behavior. -/
inductive CollabOutcome where
  | success (status : Nat) (body : String)
  | failure (e : JsError)
deriving DecidableEq, Repr

/-- The environment-derived configuration of the pipeline, plus the
window length and maximum count of the three rate limiters (the limiter
configurations live in middleware/security.js, not under src, so they are
carried as parameters per the three independent configurations of spec 4.3). -/
structure Config where
  corsOriginEnv : Option String
  nodeEnv : Option String
  genWindow : Nat
  genMax : Nat
  upWindow : Nat
  upMax : Nat
  apiWindow : Nat
  apiMax : Nat

/-- The mutable state of the three rate limiters: one bucket table per
limiter, keyed by client identity. -/
structure RateState where
  general : String → Bucket
  upload : String → Bucket
  api : String → Bucket

/-- Point update of a bucket table. -/
def updateMap (m : String → Bucket) (k : String) (v : Bucket) : String → Bucket :=
  fun c => if c = k then v else m c

/-- One inbound request as the pipeline sees it: method, path, Origin
header (none models a missing header), client identity (source address),
measured body size in bytes, and arrival time. -/
structure Request where
  method : String
  path : String
  origin : Option String
  clientId : String
  bodySize : Nat
  time : Nat

/-- Express prefix mount matching: app.use(pre, ...) fires on the exact
path and on any extension of it at a path-segment boundary. -/
def startsWithSeg (path pre : String) : Bool :=
  path = pre || charsStartWith path.data (pre ++ "/").data

/-- The route groups mounted at src/server.js:77-83, in mounting order. -/
def routeGroups : List String :=
  ["/api/upload", "/api/summarize", "/api/share", "/api/pdf",
   "/api/templates", "/api/version-history", "/api/export"]

/-- The first route group whose mount prefix matches the path. -/
def matchGroup (path : String) : Option String :=
  routeGroups.find? (fun g => startsWithSeg path g)

/-- Whether the request matches any registered route group or liveness
endpoint (the GET /api/health handler at line 86 or the GET / handler at
line 91). -/
def matchesSomeRoute (req : Request) : Prop :=
  (matchGroup req.path).isSome = true ∨
    (req.method = "GET" ∧ req.path = "/api/health") ∨
    (req.method = "GET" ∧ req.path = "/")

instance (req : Request) : Decidable (matchesSomeRoute req) := by
  unfold matchesSomeRoute
  infer_instance

/-- The body-size ceiling of express.json and express.urlencoded
(src/server.js:51-52): the string 10mb parses to 10 * 1024 * 1024 bytes. -/
def jsonBodyLimit : Nat := 10 * 1024 * 1024

/-- The body parsers admit a body exactly when its size does not exceed
the limit (raw-body rejects strictly larger bodies). -/
def bodyAdmit (n : Nat) : Bool := !(decide (jsonBodyLimit < n))

/-- Send a translated error over the current response, preserving its
headers (res.status(...).json(...)). -/
def sendErr (env : Option String) (e : JsError) (r : Resp) : Resp :=
  { r with status := (errorHandler env e).1, body := .errJson (errorHandler env e).2 }

/-- Modelled from the spec: the rejection a rate limiter sends, a
rate-limit error terminating the request with status 429 over the current
response (middleware/security.js is not under src). -/
def rateLimitResp (r : Resp) : Resp :=
  { r with status := 429, body := .rateLimitMsg }

/-- The routing stages of src/server.js:77-118: the seven route-group
mounts in order, then the GET /api/health handler, then the GET / handler,
then (after the error middleware, which only fires on errors) the terminal
404 responder. -/
def routeStage (cfg : Config) (collab : String → CollabOutcome) (req : Request)
    (r : Resp) : Resp × Term :=
  match matchGroup req.path with
  | some g =>
    match collab g with
    | .success s b => ({ r with status := s, body := .collabBody b }, .route)
    | .failure e => (sendErr cfg.nodeEnv e r, .routeError)
  | none =>
    if req.method = "GET" ∧ req.path = "/api/health" then
      ({ r with status := 200, body := .healthJson req.time }, .health)
    else if req.method = "GET" ∧ req.path = "/" then
      ({ r with status := 200, body := .text "API is running" }, .root)
    else
      ({ r with status := 404, body := .errJson ⟨"Endpoint not found", none⟩ }, .notFound)

/-- The body-parsing stage of src/server.js:51-52: an oversized body
raises an error (the raw-body request entity too large error) that the error
middleware translates; otherwise the request proceeds to routing with the
parsed body available. -/
def bodyStage (cfg : Config) (collab : String → CollabOutcome) (req : Request)
    (r : Resp) : Resp × Term :=
  if bodyAdmit req.bodySize then routeStage cfg collab req r
  else (sendErr cfg.nodeEnv (mkError "request entity too large") r, .bodyTooLarge)

/-- The class-specific rate limiters of src/server.js:46-48: the upload
limiter mounted on /api/upload, the heavy-api limiter mounted on
/api/summarize and /api/pdf.  A rejection short-circuits; otherwise the
request proceeds to body parsing. -/
def classLimiterStage (cfg : Config) (collab : String → CollabOutcome) (st : RateState)
    (req : Request) (r : Resp) : Resp × Term × RateState :=
  if startsWithSeg req.path "/api/upload" then
    if (admitBucket cfg.upWindow cfg.upMax req.time (st.upload req.clientId)).1 then
      ((bodyStage cfg collab req r).1, (bodyStage cfg collab req r).2,
        { st with upload := (updateMap st.upload req.clientId
            (admitBucket cfg.upWindow cfg.upMax req.time (st.upload req.clientId)).2) })
    else (rateLimitResp r, .rateLimit,
      { st with upload := (updateMap st.upload req.clientId
          (admitBucket cfg.upWindow cfg.upMax req.time (st.upload req.clientId)).2) })
  else if startsWithSeg req.path "/api/summarize" || startsWithSeg req.path "/api/pdf" then
    if (admitBucket cfg.apiWindow cfg.apiMax req.time (st.api req.clientId)).1 then
      ((bodyStage cfg collab req r).1, (bodyStage cfg collab req r).2,
        { st with api := (updateMap st.api req.clientId
            (admitBucket cfg.apiWindow cfg.apiMax req.time (st.api req.clientId)).2) })
    else (rateLimitResp r, .rateLimit,
      { st with api := (updateMap st.api req.clientId
          (admitBucket cfg.apiWindow cfg.apiMax req.time (st.api req.clientId)).2) })
  else ((bodyStage cfg collab req r).1, (bodyStage cfg collab req r).2, st)

/-- The general rate limiter of src/server.js:45, mounted on /api/: every
request under /api must be admitted by the general bucket before the
class-specific limiters run. -/
def generalLimiterStage (cfg : Config) (collab : String → CollabOutcome) (st : RateState)
    (req : Request) (r : Resp) : Resp × Term × RateState :=
  if startsWithSeg req.path "/api" then
    if (admitBucket cfg.genWindow cfg.genMax req.time (st.general req.clientId)).1 then
      classLimiterStage cfg collab
        { st with general := (updateMap st.general req.clientId
            (admitBucket cfg.genWindow cfg.genMax req.time (st.general req.clientId)).2) }
        req r
    else (rateLimitResp r, .rateLimit,
      { st with general := (updateMap st.general req.clientId
          (admitBucket cfg.genWindow cfg.genMax req.time (st.general req.clientId)).2) })
  else classLimiterStage cfg collab st req r

/-- The result of one pipeline invocation: the emitted response, the stage
that terminated the request, and the new state of the rate limiters. -/
structure PipeResult where
  resp : Resp
  term : Term
  state : RateState

/-- The initial response every request starts from: the security-header
stage has attached its fixed header set. -/
def initResp : Resp := { status := 200, headers := securityHeaders, body := .empty }

/-- The full pipeline of src/server.js, in mounting order: security
headers attached to the fresh response, then the CORS origin policy (whose
rejection propagates as an error to the error middleware), then the
general and class rate limiters, the body-size guard, and the routing
stages with the 404 responder last. -/
def pipeline (cfg : Config) (collab : String → CollabOutcome) (st : RateState)
    (req : Request) : PipeResult :=
  match corsDecision (allowedOriginsOf cfg.corsOriginEnv) req.origin with
  | .error msg => ⟨sendErr cfg.nodeEnv (mkError msg) initResp, .origin, st⟩
  | .ok _ =>
    ⟨(generalLimiterStage cfg collab st req initResp).1,
     (generalLimiterStage cfg collab st req initResp).2.1,
     (generalLimiterStage cfg collab st req initResp).2.2⟩

/-! ## Theorems -/

/-- C1: for every failure reaching the error-handling middleware,
classification is first-match in order: a multer LIMIT_FILE_SIZE error
yields 400 with the file-too-large envelope; otherwise a failure whose
message contains the pattern Invalid file type yields 400 with the
original message; otherwise status 500 with the generic envelope, whose
details field carries the original message exactly when NODE_ENV is
development. -/
theorem errorHandler_first_match_classification (env : Option String) (e : JsError) :
    (e.isMulterError = true ∧ e.code = some "LIMIT_FILE_SIZE" →
      errorHandler env e = (400, ⟨"File too large. Maximum size is 10MB.", none⟩)) ∧
    (¬(e.isMulterError = true ∧ e.code = some "LIMIT_FILE_SIZE") →
      ∀ m, e.message = some m → strIncludes m "Invalid file type" = true →
        errorHandler env e = (400, ⟨m, none⟩)) ∧
    (¬(e.isMulterError = true ∧ e.code = some "LIMIT_FILE_SIZE") →
      msgIncludes e.message "Invalid file type" = false →
        errorHandler env e = (500, ⟨"An unexpected error occurred. Please try again.",
          if env = some "development" then e.message else none⟩)) := by
  refine ⟨fun h => ?_, fun h m hm hinc => ?_, fun h hni => ?_⟩
  · simp only [errorHandler, if_pos h]
  · simp only [errorHandler, if_neg h, hm, msgIncludes, hinc, if_true, Option.getD_some]
  · simp only [errorHandler, if_neg h, hni, Bool.false_eq_true, if_false]

theorem errorHandler_first_match_classification_witness :
    errorHandler none multerSizeError =
      (400, ⟨"File too large. Maximum size is 10MB.", none⟩) ∧
    errorHandler none (mkError invalidFileTypeMessage) =
      (400, ⟨invalidFileTypeMessage, none⟩) ∧
    errorHandler (some "development") (mkError "boom") =
      (500, ⟨"An unexpected error occurred. Please try again.", some "boom"⟩) :=
  ⟨(errorHandler_first_match_classification none multerSizeError).1 ⟨rfl, rfl⟩,
   (errorHandler_first_match_classification none (mkError invalidFileTypeMessage)).2.1
     (by decide) invalidFileTypeMessage rfl (by decide),
   by
     have h := (errorHandler_first_match_classification (some "development")
       (mkError "boom")).2.2 (by decide) (by decide)
     simpa using h⟩

/-- C9: for every generic (unclassified) failure the response has status
500, its details field is absent whenever NODE_ENV is not development, and
in development it carries the original error message. -/
theorem errorHandler_details_only_in_development (env : Option String) (e : JsError)
    (h1 : ¬(e.isMulterError = true ∧ e.code = some "LIMIT_FILE_SIZE"))
    (h2 : msgIncludes e.message "Invalid file type" = false) :
    (errorHandler env e).1 = 500 ∧
    (env ≠ some "development" → (errorHandler env e).2.details = none) ∧
    (env = some "development" → (errorHandler env e).2.details = e.message) := by
  have hred : errorHandler env e =
      (500, ⟨"An unexpected error occurred. Please try again.",
        if env = some "development" then e.message else none⟩) := by
    simp only [errorHandler, if_neg h1, h2, Bool.false_eq_true, if_false]
  rw [hred]
  exact ⟨rfl, fun h => by simp [h], fun h => by simp [h]⟩

theorem errorHandler_details_only_in_development_witness :
    (errorHandler (some "production") (mkError "db down")).1 = 500 ∧
    (errorHandler (some "production") (mkError "db down")).2.details = none ∧
    (errorHandler (some "development") (mkError "db down")).2.details = some "db down" :=
  ⟨(errorHandler_details_only_in_development (some "production") (mkError "db down")
      (by decide) (by decide)).1,
   (errorHandler_details_only_in_development (some "production") (mkError "db down")
      (by decide) (by decide)).2.1 (by decide),
   (errorHandler_details_only_in_development (some "development") (mkError "db down")
      (by decide) (by decide)).2.2 rfl⟩

/-- C2: the fileFilter accepts a part exactly when its declared media type
is in the allow-list of exactly four types; a part with a media type
outside the list is rejected with the invalid-file-type error, which the
error middleware translates to 400 with the original message; and a
text/plain part of size 1 byte passes the whole multer admission. -/
theorem uploadGuard_type_allowList (f : FilePart) :
    (fileFilterAccepts f.mimetype = true ↔ f.mimetype ∈ allowedTypes) ∧
    allowedTypes = ["text/plain", "text/markdown", "application/json", "text/csv"] ∧
    (f.mimetype ∉ allowedTypes →
      multerAdmit f = .rejectedFilter invalidFileTypeMessage ∧
      ∀ env, errorHandler env (mkError invalidFileTypeMessage) =
        (400, ⟨invalidFileTypeMessage, none⟩)) ∧
    multerAdmit ⟨"text/plain", 1⟩ = .accepted ⟨"text/plain", 1⟩ := by
  refine ⟨?_, rfl, fun h => ⟨?_, fun env => ?_⟩, by decide⟩
  · simp [fileFilterAccepts]
  · have hc : fileFilterAccepts f.mimetype = false := by
      simp [fileFilterAccepts, h]
    simp [multerAdmit, hc]
  · have h2 : msgIncludes (some invalidFileTypeMessage) "Invalid file type" = true := by
      decide
    simp [errorHandler, mkError, h2]

theorem uploadGuard_type_allowList_witness :
    multerAdmit ⟨"application/pdf", 100⟩ = .rejectedFilter invalidFileTypeMessage ∧
    errorHandler none (mkError invalidFileTypeMessage) =
      (400, ⟨invalidFileTypeMessage, none⟩) :=
  ⟨((uploadGuard_type_allowList ⟨"application/pdf", 100⟩).2.2.1 (by decide)).1,
   ((uploadGuard_type_allowList ⟨"application/pdf", 100⟩).2.2.1 (by decide)).2 none⟩

/-- C3 counterexample: a part of size 10*1024*1024+1 with the disallowed
media type application/pdf is not rejected with the multer size condition:
the fileFilter rejects it first with the invalid-file-type error, whose
translation is not the file-too-large envelope. -/
theorem oversized_disallowed_type_not_fileTooLarge :
    multerAdmit ⟨"application/pdf", 10 * 1024 * 1024 + 1⟩ ≠ .rejectedSize ∧
    multerAdmit ⟨"application/pdf", 10 * 1024 * 1024 + 1⟩ =
      .rejectedFilter invalidFileTypeMessage ∧
    errorHandler none (mkError invalidFileTypeMessage) ≠
      (400, ⟨"File too large. Maximum size is 10MB.", none⟩) := by
  refine ⟨by decide, by decide, ?_⟩
  have he : errorHandler none (mkError invalidFileTypeMessage) =
      (400, ⟨invalidFileTypeMessage, none⟩) := by
    have h2 : msgIncludes (some invalidFileTypeMessage) "Invalid file type" = true := by
      decide
    simp [errorHandler, mkError, h2]
  rw [he]
  decide

/-- C3 amended: a part whose declared media type is in the allow-list and
whose size exceeds 10*1024*1024 bytes is rejected with the multer
LIMIT_FILE_SIZE condition, translated to 400 with the file-too-large
envelope; a part whose media type is outside the allow-list is rejected
with the invalid-file-type condition regardless of size. -/
theorem oversized_allowed_type_fileTooLarge (f : FilePart)
    (ht : f.mimetype ∈ allowedTypes) (hs : fileSizeLimit < f.size) :
    multerAdmit f = .rejectedSize ∧
    (∀ env, errorHandler env multerSizeError =
      (400, ⟨"File too large. Maximum size is 10MB.", none⟩)) ∧
    (∀ g : FilePart, g.mimetype ∉ allowedTypes →
      multerAdmit g = .rejectedFilter invalidFileTypeMessage) := by
  refine ⟨?_, fun env => ?_, fun g hg => ?_⟩
  · have hc : fileFilterAccepts f.mimetype = true := by
      simp [fileFilterAccepts, ht]
    simp [multerAdmit, hc, hs]
  · simp [errorHandler, multerSizeError]
  · have hc : fileFilterAccepts g.mimetype = false := by
      simp [fileFilterAccepts, hg]
    simp [multerAdmit, hc]

theorem oversized_allowed_type_fileTooLarge_witness :
    multerAdmit ⟨"text/plain", 10 * 1024 * 1024 + 1⟩ = .rejectedSize ∧
    errorHandler none multerSizeError =
      (400, ⟨"File too large. Maximum size is 10MB.", none⟩) :=
  ⟨(oversized_allowed_type_fileTooLarge ⟨"text/plain", 10 * 1024 * 1024 + 1⟩
      (by decide) (by decide)).1,
   (oversized_allowed_type_fileTooLarge ⟨"text/plain", 10 * 1024 * 1024 + 1⟩
      (by decide) (by decide)).2.1 none⟩

/-- C5: the origin policy is a pure decision function: a request with no
Origin header is admitted unconditionally; a present origin in the allowed
list is admitted (and the configuration echoes credentials support); a
present origin outside the list produces the CORS error, which the
pipeline turns into a translated error response (status 500 through the
generic branch of the error middleware), never a silent drop. -/
theorem corsOriginPolicy (allowed : List String) (origin : Option String) :
    (origin = none → corsDecision allowed origin = .ok ()) ∧
    (∀ o, origin = some o → o ∈ allowed → corsDecision allowed origin = .ok ()) ∧
    (∀ o, origin = some o → o ∉ allowed →
      corsDecision allowed origin = .error "Not allowed by CORS") ∧
    corsCredentials = true ∧
    (∀ (cfg : Config) (collab : String → CollabOutcome) (st : RateState) (req : Request),
      corsDecision (allowedOriginsOf cfg.corsOriginEnv) req.origin =
        .error "Not allowed by CORS" →
      (pipeline cfg collab st req).term = .origin ∧
      (pipeline cfg collab st req).resp.status = 500 ∧
      (pipeline cfg collab st req).resp.body =
        .errJson (errorHandler cfg.nodeEnv (mkError "Not allowed by CORS")).2) := by
  refine ⟨fun h => ?_, fun o ho hmem => ?_, fun o ho hnmem => ?_, rfl,
    fun cfg collab st req h => ?_⟩
  · rw [h]; rfl
  · rw [ho]; simp [corsDecision, hmem]
  · rw [ho]; simp [corsDecision, hnmem]
  · have hp : pipeline cfg collab st req =
        ⟨sendErr cfg.nodeEnv (mkError "Not allowed by CORS") initResp, .origin, st⟩ := by
      unfold pipeline
      rw [h]
    rw [hp]
    refine ⟨rfl, ?_, rfl⟩
    have h5 : (errorHandler cfg.nodeEnv (mkError "Not allowed by CORS")).1 = 500 := by
      have h2 : msgIncludes (some "Not allowed by CORS") "Invalid file type" = false := by
        decide
      simp [errorHandler, mkError, h2]
    simpa [sendErr] using h5

theorem corsOriginPolicy_witness :
    corsDecision ["http://localhost:3000"] none = .ok () ∧
    corsDecision ["http://localhost:3000"] (some "http://localhost:3000") = .ok () ∧
    corsDecision ["http://localhost:3000"] (some "http://evil.example") =
      .error "Not allowed by CORS" ∧
    (pipeline ⟨none, none, 10, 2, 10, 1, 10, 1⟩ (fun _ => .success 200 "ok")
        ⟨fun _ => ⟨0, 0⟩, fun _ => ⟨0, 0⟩, fun _ => ⟨0, 0⟩⟩
        ⟨"GET", "/api/share", some "http://evil.example", "c", 0, 0⟩).term = .origin :=
  ⟨(corsOriginPolicy ["http://localhost:3000"] none).1 rfl,
   (corsOriginPolicy ["http://localhost:3000"] (some "http://localhost:3000")).2.1
     "http://localhost:3000" rfl (by decide),
   (corsOriginPolicy ["http://localhost:3000"] (some "http://evil.example")).2.2.1
     "http://evil.example" rfl (by decide),
   ((corsOriginPolicy (allowedOriginsOf none) (some "http://evil.example")).2.2.2.2
     ⟨none, none, 10, 2, 10, 1, 10, 1⟩ (fun _ => .success 200 "ok")
     ⟨fun _ => ⟨0, 0⟩, fun _ => ⟨0, 0⟩, fun _ => ⟨0, 0⟩⟩
     ⟨"GET", "/api/share", some "http://evil.example", "c", 0, 0⟩ rfl).1⟩

/-- Within one window, a bucket starting at count c admits the i-th
request exactly when c + i is below the maximum, and ends at the capped
count. -/
theorem processTimes_window (wl mc start : Nat) (ts : List Nat) :
    ∀ c : Nat, c ≤ mc → (∀ t ∈ ts, t < start + wl) →
    processTimes wl mc ⟨c, start⟩ ts =
      ((List.range ts.length).map (fun i => decide (c + i < mc)),
        ⟨min (c + ts.length) mc, start⟩) := by
  induction ts with
  | nil =>
    intro c hc _
    simp [processTimes, Nat.min_eq_left hc]
  | cons t ts ih =>
    intro c hc h
    have hwin : ¬(start + wl ≤ t) := by
      have := h t (List.mem_cons_self t ts)
      omega
    have hrest : ∀ t' ∈ ts, t' < start + wl := fun t' ht' => h t' (List.mem_cons_of_mem t ht')
    by_cases hcm : c < mc
    · have ha : admitBucket wl mc t ⟨c, start⟩ = (true, ⟨c + 1, start⟩) := by
        simp [admitBucket, hwin, hcm]
      simp only [processTimes, ha]
      rw [ih (c + 1) hcm hrest]
      refine Prod.ext ?_ ?_
      · show true :: (List.range ts.length).map (fun i => decide (c + 1 + i < mc)) =
          (List.range (ts.length + 1)).map (fun i => decide (c + i < mc))
        rw [List.range_succ_eq_map, List.map_cons, List.map_map]
        refine List.cons_eq_cons.mpr ⟨?_, ?_⟩
        · simpa using hcm
        · refine List.map_congr_left fun i _ => ?_
          show decide (c + 1 + i < mc) = decide (c + (i + 1) < mc)
          have : c + 1 + i = c + (i + 1) := by omega
          rw [this]
      · show (⟨min (c + 1 + ts.length) mc, start⟩ : Bucket) =
          ⟨min (c + (ts.length + 1)) mc, start⟩
        have : c + 1 + ts.length = c + (ts.length + 1) := by omega
        rw [this]
    · have hceq : c = mc := Nat.le_antisymm hc (Nat.le_of_not_lt hcm)
      have ha : admitBucket wl mc t ⟨c, start⟩ = (false, ⟨c, start⟩) := by
        simp [admitBucket, hwin, hcm]
      simp only [processTimes, ha]
      rw [ih c hc hrest]
      refine Prod.ext ?_ ?_
      · show false :: (List.range ts.length).map (fun i => decide (c + i < mc)) =
          (List.range (ts.length + 1)).map (fun i => decide (c + i < mc))
        rw [List.range_succ_eq_map, List.map_cons, List.map_map]
        refine List.cons_eq_cons.mpr ⟨?_, ?_⟩
        · simp [hcm]
        · refine List.map_congr_left fun i _ => ?_
          show decide (c + i < mc) = decide (c + (i + 1) < mc)
          rw [decide_eq_false (by omega), decide_eq_false (by omega)]
      · show (⟨min (c + ts.length) mc, start⟩ : Bucket) =
          ⟨min (c + (ts.length + 1)) mc, start⟩
        subst hceq
        rw [Nat.min_eq_right (by omega), Nat.min_eq_right (by omega)]

/-- C4: for a sequence of requests from one client against one bucket
within a single window, the first maxCount requests are admitted and every
later request in the window is rejected; a request arriving after the
window has elapsed is admitted again. -/
theorem rateLimiter_window_admission (wl mc start : Nat) (hmc : 0 < mc)
    (ts : List Nat) (hts : ∀ t ∈ ts, t < start + wl)
    (t2 : Nat) (ht2 : start + wl ≤ t2) :
    (processTimes wl mc ⟨0, start⟩ ts).1 =
      (List.range ts.length).map (fun i => decide (i < mc)) ∧
    (admitBucket wl mc t2 (processTimes wl mc ⟨0, start⟩ ts).2).1 = true := by
  have h := processTimes_window wl mc start ts 0 (Nat.zero_le _) hts
  rw [h]
  constructor
  · refine List.map_congr_left fun i _ => ?_
    rw [Nat.zero_add]
  · simp [admitBucket, ht2, hmc]

theorem rateLimiter_window_admission_witness :
    (processTimes 60 2 ⟨0, 0⟩ [0, 1, 2, 3]).1 =
      (List.range 4).map (fun i => decide (i < 2)) ∧
    (admitBucket 60 2 60 (processTimes 60 2 ⟨0, 0⟩ [0, 1, 2, 3]).2).1 = true :=
  rateLimiter_window_admission 60 2 0 (by decide) [0, 1, 2, 3] (by decide) 60 (by decide)

/-- The routing stages only set status and body; headers survive. -/
theorem routeStage_headers (cfg : Config) (collab : String → CollabOutcome)
    (req : Request) (r : Resp) : (routeStage cfg collab req r).1.headers = r.headers := by
  unfold routeStage sendErr
  split
  · split <;> rfl
  · split
    · rfl
    · split <;> rfl

/-- The body-size guard only sets status and body; headers survive. -/
theorem bodyStage_headers (cfg : Config) (collab : String → CollabOutcome)
    (req : Request) (r : Resp) : (bodyStage cfg collab req r).1.headers = r.headers := by
  unfold bodyStage
  split
  · exact routeStage_headers cfg collab req r
  · rfl

/-- The class-specific rate limiters only set status and body; headers
survive. -/
theorem classLimiterStage_headers (cfg : Config) (collab : String → CollabOutcome)
    (st : RateState) (req : Request) (r : Resp) :
    (classLimiterStage cfg collab st req r).1.headers = r.headers := by
  unfold classLimiterStage
  split
  · split
    · exact bodyStage_headers cfg collab req r
    · rfl
  · split
    · split
      · exact bodyStage_headers cfg collab req r
      · rfl
    · exact bodyStage_headers cfg collab req r

/-- The general rate limiter only sets status and body; headers survive. -/
theorem generalLimiterStage_headers (cfg : Config) (collab : String → CollabOutcome)
    (st : RateState) (req : Request) (r : Resp) :
    (generalLimiterStage cfg collab st req r).1.headers = r.headers := by
  unfold generalLimiterStage
  split
  · split
    · exact classLimiterStage_headers cfg collab _ req r
    · rfl
  · exact classLimiterStage_headers cfg collab st req r

/-- C6: every response the pipeline emits, whichever stage terminated the
request, carries the full fixed set of security headers attached by the
first stage. -/
theorem securityHeaders_on_every_response (cfg : Config) (collab : String → CollabOutcome)
    (st : RateState) (req : Request) :
    (pipeline cfg collab st req).resp.headers = securityHeaders := by
  unfold pipeline
  split
  · rfl
  · exact generalLimiterStage_headers cfg collab st req initResp

/-! ## Stage-reduction lemmas -/

/-- The general-limiter admission verdict for a request, read off the
current state. -/
def genAdmit (cfg : Config) (st : RateState) (req : Request) : Bool :=
  (admitBucket cfg.genWindow cfg.genMax req.time (st.general req.clientId)).1

/-- The upload-limiter admission verdict for a request. -/
def upAdmit (cfg : Config) (st : RateState) (req : Request) : Bool :=
  (admitBucket cfg.upWindow cfg.upMax req.time (st.upload req.clientId)).1

/-- The heavy-api-limiter admission verdict for a request. -/
def apiAdmit (cfg : Config) (st : RateState) (req : Request) : Bool :=
  (admitBucket cfg.apiWindow cfg.apiMax req.time (st.api req.clientId)).1

/-- The state after the general limiter has counted the request. -/
def stAfterGen (cfg : Config) (st : RateState) (req : Request) : RateState :=
  { st with general := (updateMap st.general req.clientId
      (admitBucket cfg.genWindow cfg.genMax req.time (st.general req.clientId)).2) }

theorem upAdmit_stAfterGen (cfg : Config) (st : RateState) (req : Request) :
    upAdmit cfg (stAfterGen cfg st req) req = upAdmit cfg st req := rfl

theorem apiAdmit_stAfterGen (cfg : Config) (st : RateState) (req : Request) :
    apiAdmit cfg (stAfterGen cfg st req) req = apiAdmit cfg st req := rfl

/-- The origin callback either admits or produces the CORS error. -/
theorem corsDecision_cases (a : List String) (o : Option String) :
    corsDecision a o = .ok () ∨ corsDecision a o = .error "Not allowed by CORS" := by
  cases o with
  | none => exact Or.inl rfl
  | some o =>
    by_cases h : a.contains o = true
    · left
      show (if a.contains o = true then (Except.ok () : Except String Unit)
        else .error "Not allowed by CORS") = .ok ()
      rw [if_pos h]
    · right
      show (if a.contains o = true then (Except.ok () : Except String Unit)
        else .error "Not allowed by CORS") = .error "Not allowed by CORS"
      rw [if_neg h]

theorem pipeline_ok (cfg : Config) (collab : String → CollabOutcome) (st : RateState)
    (req : Request)
    (hc : corsDecision (allowedOriginsOf cfg.corsOriginEnv) req.origin = .ok ()) :
    pipeline cfg collab st req =
      ⟨(generalLimiterStage cfg collab st req initResp).1,
       (generalLimiterStage cfg collab st req initResp).2.1,
       (generalLimiterStage cfg collab st req initResp).2.2⟩ := by
  unfold pipeline
  rw [hc]

theorem pipeline_err (cfg : Config) (collab : String → CollabOutcome) (st : RateState)
    (req : Request) (msg : String)
    (hc : corsDecision (allowedOriginsOf cfg.corsOriginEnv) req.origin = .error msg) :
    pipeline cfg collab st req = ⟨sendErr cfg.nodeEnv (mkError msg) initResp, .origin, st⟩ := by
  unfold pipeline
  rw [hc]

theorem generalStage_skip (cfg : Config) (collab : String → CollabOutcome) (st : RateState)
    (req : Request) (r : Resp) (h : startsWithSeg req.path "/api" = false) :
    generalLimiterStage cfg collab st req r = classLimiterStage cfg collab st req r := by
  unfold generalLimiterStage
  simp [h]

theorem generalStage_pass (cfg : Config) (collab : String → CollabOutcome) (st : RateState)
    (req : Request) (r : Resp) (h : startsWithSeg req.path "/api" = true)
    (ha : genAdmit cfg st req = true) :
    generalLimiterStage cfg collab st req r =
      classLimiterStage cfg collab (stAfterGen cfg st req) req r := by
  unfold generalLimiterStage
  unfold genAdmit at ha
  simp [h, ha, stAfterGen]

theorem generalStage_reject (cfg : Config) (collab : String → CollabOutcome) (st : RateState)
    (req : Request) (r : Resp) (h : startsWithSeg req.path "/api" = true)
    (ha : genAdmit cfg st req = false) :
    generalLimiterStage cfg collab st req r =
      (rateLimitResp r, .rateLimit, stAfterGen cfg st req) := by
  unfold generalLimiterStage
  unfold genAdmit at ha
  simp [h, ha, stAfterGen]

theorem classStage_upload_pass (cfg : Config) (collab : String → CollabOutcome)
    (st : RateState) (req : Request) (r : Resp)
    (h : startsWithSeg req.path "/api/upload" = true) (ha : upAdmit cfg st req = true) :
    (classLimiterStage cfg collab st req r).1 = (bodyStage cfg collab req r).1 ∧
    (classLimiterStage cfg collab st req r).2.1 = (bodyStage cfg collab req r).2 := by
  unfold classLimiterStage
  unfold upAdmit at ha
  simp [h, ha]

theorem classStage_upload_reject (cfg : Config) (collab : String → CollabOutcome)
    (st : RateState) (req : Request) (r : Resp)
    (h : startsWithSeg req.path "/api/upload" = true) (ha : upAdmit cfg st req = false) :
    (classLimiterStage cfg collab st req r).1 = rateLimitResp r ∧
    (classLimiterStage cfg collab st req r).2.1 = .rateLimit := by
  unfold classLimiterStage
  unfold upAdmit at ha
  simp [h, ha]

theorem classStage_heavy_pass (cfg : Config) (collab : String → CollabOutcome)
    (st : RateState) (req : Request) (r : Resp)
    (h : startsWithSeg req.path "/api/upload" = false)
    (hh : (startsWithSeg req.path "/api/summarize" || startsWithSeg req.path "/api/pdf") = true)
    (ha : apiAdmit cfg st req = true) :
    (classLimiterStage cfg collab st req r).1 = (bodyStage cfg collab req r).1 ∧
    (classLimiterStage cfg collab st req r).2.1 = (bodyStage cfg collab req r).2 := by
  unfold classLimiterStage
  unfold apiAdmit at ha
  simp [h, hh, ha]

theorem classStage_heavy_reject (cfg : Config) (collab : String → CollabOutcome)
    (st : RateState) (req : Request) (r : Resp)
    (h : startsWithSeg req.path "/api/upload" = false)
    (hh : (startsWithSeg req.path "/api/summarize" || startsWithSeg req.path "/api/pdf") = true)
    (ha : apiAdmit cfg st req = false) :
    (classLimiterStage cfg collab st req r).1 = rateLimitResp r ∧
    (classLimiterStage cfg collab st req r).2.1 = .rateLimit := by
  unfold classLimiterStage
  unfold apiAdmit at ha
  simp [h, hh, ha]

theorem classStage_other (cfg : Config) (collab : String → CollabOutcome)
    (st : RateState) (req : Request) (r : Resp)
    (h : startsWithSeg req.path "/api/upload" = false)
    (hh : (startsWithSeg req.path "/api/summarize" || startsWithSeg req.path "/api/pdf") = false) :
    classLimiterStage cfg collab st req r =
      ((bodyStage cfg collab req r).1, (bodyStage cfg collab req r).2, st) := by
  unfold classLimiterStage
  simp [h, hh]

theorem bodyStage_pass (cfg : Config) (collab : String → CollabOutcome) (req : Request)
    (r : Resp) (h : bodyAdmit req.bodySize = true) :
    bodyStage cfg collab req r = routeStage cfg collab req r := by
  unfold bodyStage
  simp [h]

theorem bodyStage_reject (cfg : Config) (collab : String → CollabOutcome) (req : Request)
    (r : Resp) (h : bodyAdmit req.bodySize = false) :
    bodyStage cfg collab req r =
      (sendErr cfg.nodeEnv (mkError "request entity too large") r, .bodyTooLarge) := by
  unfold bodyStage
  simp [h]

/-- An unmatched request reaching the routing stages falls through to the
404 responder. -/
theorem routeStage_unmatched (cfg : Config) (collab : String → CollabOutcome)
    (req : Request) (r : Resp) (h : ¬ matchesSomeRoute req) :
    routeStage cfg collab req r =
      ({ r with status := 404, body := .errJson ⟨"Endpoint not found", none⟩ }, .notFound) := by
  have h1 : ¬ (matchGroup req.path).isSome = true := fun x => h (Or.inl x)
  have h2 : ¬ (req.method = "GET" ∧ req.path = "/api/health") :=
    fun x => h (Or.inr (Or.inl x))
  have h3 : ¬ (req.method = "GET" ∧ req.path = "/") := fun x => h (Or.inr (Or.inr x))
  cases hm : matchGroup req.path with
  | some g => rw [hm] at h1; simp at h1
  | none =>
    simp only [routeStage, hm]
    rw [if_neg h2, if_neg h3]

/-- Only an unmatched request ends at the 404 responder. -/
theorem routeStage_notFound (cfg : Config) (collab : String → CollabOutcome)
    (req : Request) (r : Resp) (h : (routeStage cfg collab req r).2 = .notFound) :
    ¬ matchesSomeRoute req := by
  unfold matchesSomeRoute
  cases hm : matchGroup req.path with
  | some g =>
    simp only [routeStage, hm] at h
    cases hcg : collab g <;> simp only [hcg] at h <;> simp at h
  | none =>
    simp only [routeStage, hm] at h
    split at h
    · simp at h
    · split at h
      · simp at h
      · rename_i hh hr
        rintro (hmg | hcase | hcase)
        · simp at hmg
        · exact hh hcase
        · exact hr hcase

/-- The routing stages never produce an admission-guard terminator. -/
theorem routeStage_term_not_guard (cfg : Config) (collab : String → CollabOutcome)
    (req : Request) (r : Resp) :
    (routeStage cfg collab req r).2 ≠ .origin ∧
    (routeStage cfg collab req r).2 ≠ .rateLimit ∧
    (routeStage cfg collab req r).2 ≠ .bodyTooLarge := by
  unfold routeStage
  split
  · split <;> simp
  · split
    · simp
    · split <;> simp

/-- Starting with a concatenation implies starting with its left part. -/
theorem charsStartWith_of_append (a b xs : List Char)
    (h : charsStartWith xs (a ++ b) = true) : charsStartWith xs a = true := by
  induction a generalizing xs with
  | nil => cases xs <;> rfl
  | cons c cs ih =>
    cases xs with
    | nil => simp [charsStartWith] at h
    | cons x xs' =>
      simp only [List.cons_append, charsStartWith, Bool.and_eq_true] at h ⊢
      exact ⟨h.1, ih xs' h.2⟩

/-- A path under one of the mounted /api sub-prefixes is under /api. -/
theorem seg_under_api (p pre rest : String)
    (hsplit : (pre ++ "/" : String).data = ("/api" ++ "/" : String).data ++ rest.data)
    (hpre : startsWithSeg pre "/api" = true)
    (h : startsWithSeg p pre = true) : startsWithSeg p "/api" = true := by
  unfold startsWithSeg at h ⊢
  simp only [Bool.or_eq_true] at h ⊢
  rcases h with h1 | h2
  · have hp : p = pre := of_decide_eq_true h1
    subst hp
    unfold startsWithSeg at hpre
    simp only [Bool.or_eq_true] at hpre
    exact hpre
  · refine Or.inr ?_
    rw [hsplit] at h2
    exact charsStartWith_of_append _ _ _ h2

/-- A path under /api/summarize or /api/pdf is under /api. -/
theorem seg_heavy_api (p : String)
    (h : (startsWithSeg p "/api/summarize" || startsWithSeg p "/api/pdf") = true) :
    startsWithSeg p "/api" = true := by
  simp only [Bool.or_eq_true] at h
  rcases h with h1 | h1
  · exact seg_under_api p "/api/summarize" "summarize/" (by decide) (by decide) h1
  · exact seg_under_api p "/api/pdf" "pdf/" (by decide) (by decide) h1

/-- A request surviving the class limiters was admitted by every limiter
its path is mounted under, and proceeds to the body stage. -/
theorem classStage_reaches_body (cfg : Config) (collab : String → CollabOutcome)
    (st : RateState) (req : Request) (r : Resp)
    (h : (classLimiterStage cfg collab st req r).2.1 ≠ .rateLimit) :
    (startsWithSeg req.path "/api/upload" = true → upAdmit cfg st req = true) ∧
    (startsWithSeg req.path "/api/upload" = false →
      (startsWithSeg req.path "/api/summarize" || startsWithSeg req.path "/api/pdf") = true →
      apiAdmit cfg st req = true) ∧
    (classLimiterStage cfg collab st req r).1 = (bodyStage cfg collab req r).1 ∧
    (classLimiterStage cfg collab st req r).2.1 = (bodyStage cfg collab req r).2 := by
  by_cases hup : startsWithSeg req.path "/api/upload" = true
  · by_cases hua : upAdmit cfg st req = true
    · obtain ⟨e1, e2⟩ := classStage_upload_pass cfg collab st req r hup hua
      exact ⟨fun _ => hua, fun hf _ => absurd hup (by simp [hf]), e1, e2⟩
    · have hua' : upAdmit cfg st req = false := by simpa using hua
      obtain ⟨_, e2⟩ := classStage_upload_reject cfg collab st req r hup hua'
      exact (h e2).elim
  · have hup' : startsWithSeg req.path "/api/upload" = false := by simpa using hup
    by_cases hh : (startsWithSeg req.path "/api/summarize"
        || startsWithSeg req.path "/api/pdf") = true
    · by_cases hap : apiAdmit cfg st req = true
      · obtain ⟨e1, e2⟩ := classStage_heavy_pass cfg collab st req r hup' hh hap
        exact ⟨fun hf => absurd hf (by simp [hup']), fun _ _ => hap, e1, e2⟩
      · have hap' : apiAdmit cfg st req = false := by simpa using hap
        obtain ⟨_, e2⟩ := classStage_heavy_reject cfg collab st req r hup' hh hap'
        exact (h e2).elim
    · have hh' : (startsWithSeg req.path "/api/summarize"
          || startsWithSeg req.path "/api/pdf") = false := by simpa using hh
      have e := classStage_other cfg collab st req r hup' hh'
      refine ⟨fun hf => absurd hf (by simp [hup']),
        fun _ hcontra => absurd hcontra (by simp [hh']), ?_, ?_⟩
      · rw [e]
      · rw [e]

/-- A request the pipeline did not terminate at the origin policy or a
rate limiter passed the origin check and every limiter its path is
mounted under, and its outcome is that of the body stage. -/
theorem pipeline_reaches_dispatch (cfg : Config) (collab : String → CollabOutcome)
    (st : RateState) (req : Request)
    (h1 : (pipeline cfg collab st req).term ≠ .origin)
    (h2 : (pipeline cfg collab st req).term ≠ .rateLimit) :
    corsDecision (allowedOriginsOf cfg.corsOriginEnv) req.origin = .ok () ∧
    (startsWithSeg req.path "/api" = true → genAdmit cfg st req = true) ∧
    (startsWithSeg req.path "/api/upload" = true → upAdmit cfg st req = true) ∧
    (startsWithSeg req.path "/api/upload" = false →
      (startsWithSeg req.path "/api/summarize" || startsWithSeg req.path "/api/pdf") = true →
      apiAdmit cfg st req = true) ∧
    (pipeline cfg collab st req).resp = (bodyStage cfg collab req initResp).1 ∧
    (pipeline cfg collab st req).term = (bodyStage cfg collab req initResp).2 := by
  obtain hc | hc := corsDecision_cases (allowedOriginsOf cfg.corsOriginEnv) req.origin
  · have hP := pipeline_ok cfg collab st req hc
    by_cases hga : startsWithSeg req.path "/api" = true
    · by_cases hgen : genAdmit cfg st req = true
      · have hG := generalStage_pass cfg collab st req initResp hga hgen
        have hcl : (classLimiterStage cfg collab (stAfterGen cfg st req) req initResp).2.1 ≠
            .rateLimit := by
          intro hx
          apply h2
          rw [hP]
          show (generalLimiterStage cfg collab st req initResp).2.1 = .rateLimit
          rw [hG]
          exact hx
        obtain ⟨c1, c2, c3, c4⟩ :=
          classStage_reaches_body cfg collab (stAfterGen cfg st req) req initResp hcl
        rw [upAdmit_stAfterGen] at c1
        rw [apiAdmit_stAfterGen] at c2
        refine ⟨hc, fun _ => hgen, c1, c2, ?_, ?_⟩
        · rw [hP]
          show (generalLimiterStage cfg collab st req initResp).1 = _
          rw [hG]
          exact c3
        · rw [hP]
          show (generalLimiterStage cfg collab st req initResp).2.1 = _
          rw [hG]
          exact c4
      · have hgen' : genAdmit cfg st req = false := by simpa using hgen
        have hG := generalStage_reject cfg collab st req initResp hga hgen'
        exfalso
        apply h2
        rw [hP]
        show (generalLimiterStage cfg collab st req initResp).2.1 = .rateLimit
        rw [hG]
    · have hga' : startsWithSeg req.path "/api" = false := by simpa using hga
      have hG := generalStage_skip cfg collab st req initResp hga'
      have hcl : (classLimiterStage cfg collab st req initResp).2.1 ≠ .rateLimit := by
        intro hx
        apply h2
        rw [hP]
        show (generalLimiterStage cfg collab st req initResp).2.1 = .rateLimit
        rw [hG]
        exact hx
      obtain ⟨c1, c2, c3, c4⟩ := classStage_reaches_body cfg collab st req initResp hcl
      refine ⟨hc, fun hcontra => absurd hcontra (by simp [hga']), c1, c2, ?_, ?_⟩
      · rw [hP]
        show (generalLimiterStage cfg collab st req initResp).1 = _
        rw [hG]
        exact c3
      · rw [hP]
        show (generalLimiterStage cfg collab st req initResp).2.1 = _
        rw [hG]
        exact c4
  · rw [pipeline_err cfg collab st req _ hc] at h1
    exact absurd rfl h1

/-- C7: the body guard accepts a body of exactly the configured ceiling
and rejects one a single byte over it; a request whose body exceeds the
ceiling never reaches the routing stages, so downstream handlers only ever
see bodies within the limit. -/
theorem bodyGuard_ceiling (cfg : Config) (collab : String → CollabOutcome)
    (st : RateState) (req : Request) :
    bodyAdmit jsonBodyLimit = true ∧
    bodyAdmit (jsonBodyLimit + 1) = false ∧
    (req.bodySize ≤ jsonBodyLimit → (pipeline cfg collab st req).term ≠ .bodyTooLarge) ∧
    ((pipeline cfg collab st req).term = .route ∨
     (pipeline cfg collab st req).term = .routeError ∨
     (pipeline cfg collab st req).term = .health ∨
     (pipeline cfg collab st req).term = .root ∨
     (pipeline cfg collab st req).term = .notFound →
     req.bodySize ≤ jsonBodyLimit) := by
  refine ⟨by decide, by decide, fun hsize hterm => ?_, fun hd => ?_⟩
  · have h1 : (pipeline cfg collab st req).term ≠ .origin := by rw [hterm]; simp
    have h2 : (pipeline cfg collab st req).term ≠ .rateLimit := by rw [hterm]; simp
    obtain ⟨_, _, _, _, _, c6⟩ := pipeline_reaches_dispatch cfg collab st req h1 h2
    have hba : bodyAdmit req.bodySize = true := by
      simp only [bodyAdmit, Bool.not_eq_true', decide_eq_false_iff_not]
      omega
    rw [bodyStage_pass cfg collab req initResp hba] at c6
    rw [hterm] at c6
    exact (routeStage_term_not_guard cfg collab req initResp).2.2 c6.symm
  · have h1 : (pipeline cfg collab st req).term ≠ .origin := by
      rcases hd with h | h | h | h | h <;> rw [h] <;> simp
    have h2 : (pipeline cfg collab st req).term ≠ .rateLimit := by
      rcases hd with h | h | h | h | h <;> rw [h] <;> simp
    obtain ⟨_, _, _, _, _, c6⟩ := pipeline_reaches_dispatch cfg collab st req h1 h2
    by_cases hba : bodyAdmit req.bodySize = true
    · simp only [bodyAdmit, Bool.not_eq_true', decide_eq_false_iff_not] at hba
      omega
    · have hba' : bodyAdmit req.bodySize = false := by simpa using hba
      rw [bodyStage_reject cfg collab req initResp hba'] at c6
      rcases hd with h | h | h | h | h <;> rw [h] at c6 <;> simp at c6

theorem bodyGuard_ceiling_witness :
    bodyAdmit jsonBodyLimit = true ∧
    bodyAdmit (jsonBodyLimit + 1) = false ∧
    (pipeline ⟨none, none, 60, 100, 60, 100, 60, 100⟩ (fun _ => .success 200 "ok")
      ⟨fun _ => ⟨0, 0⟩, fun _ => ⟨0, 0⟩, fun _ => ⟨0, 0⟩⟩
      ⟨"POST", "/api/share", none, "c", 0, 0⟩).term ≠ .bodyTooLarge :=
  ⟨(bodyGuard_ceiling ⟨none, none, 60, 100, 60, 100, 60, 100⟩ (fun _ => .success 200 "ok")
      ⟨fun _ => ⟨0, 0⟩, fun _ => ⟨0, 0⟩, fun _ => ⟨0, 0⟩⟩
      ⟨"POST", "/api/share", none, "c", 0, 0⟩).1,
   (bodyGuard_ceiling ⟨none, none, 60, 100, 60, 100, 60, 100⟩ (fun _ => .success 200 "ok")
      ⟨fun _ => ⟨0, 0⟩, fun _ => ⟨0, 0⟩, fun _ => ⟨0, 0⟩⟩
      ⟨"POST", "/api/share", none, "c", 0, 0⟩).2.1,
   (bodyGuard_ceiling ⟨none, none, 60, 100, 60, 100, 60, 100⟩ (fun _ => .success 200 "ok")
      ⟨fun _ => ⟨0, 0⟩, fun _ => ⟨0, 0⟩, fun _ => ⟨0, 0⟩⟩
      ⟨"POST", "/api/share", none, "c", 0, 0⟩).2.2.1 (by decide)⟩

/-- C8 counterexample: an unmatched request carrying a disallowed Origin
header is answered by the error translator with status 500, not by the 404
responder, because the origin policy runs before routing. -/
theorem notFound_unmatched_counterexample :
    ¬ matchesSomeRoute ⟨"GET", "/nope", some "http://evil.example", "c", 0, 0⟩ ∧
    (pipeline ⟨none, none, 60, 100, 60, 100, 60, 100⟩ (fun _ => .success 200 "ok")
      ⟨fun _ => ⟨0, 0⟩, fun _ => ⟨0, 0⟩, fun _ => ⟨0, 0⟩⟩
      ⟨"GET", "/nope", some "http://evil.example", "c", 0, 0⟩).resp.status = 500 ∧
    (pipeline ⟨none, none, 60, 100, 60, 100, 60, 100⟩ (fun _ => .success 200 "ok")
      ⟨fun _ => ⟨0, 0⟩, fun _ => ⟨0, 0⟩, fun _ => ⟨0, 0⟩⟩
      ⟨"GET", "/nope", some "http://evil.example", "c", 0, 0⟩).resp.status ≠ 404 := by
  refine ⟨by decide, rfl, by decide⟩

/-- C8 amended: every request that passes the origin policy, the rate
limiters and the body guard and matches no registered route group or
liveness endpoint receives status 404 with the endpoint-not-found
envelope; and the 404 responder is terminal, answering only requests that
match no route. -/
theorem notFound_terminal (cfg : Config) (collab : String → CollabOutcome)
    (st : RateState) (req : Request)
    (hc : corsDecision (allowedOriginsOf cfg.corsOriginEnv) req.origin = .ok ())
    (hgen : startsWithSeg req.path "/api" = true → genAdmit cfg st req = true)
    (hbody : req.bodySize ≤ jsonBodyLimit)
    (hnm : ¬ matchesSomeRoute req) :
    (pipeline cfg collab st req).resp =
      { status := 404, headers := securityHeaders,
        body := .errJson ⟨"Endpoint not found", none⟩ } ∧
    (pipeline cfg collab st req).term = .notFound ∧
    (∀ (cfg' : Config) (collab' : String → CollabOutcome) (st' : RateState) (req' : Request),
      (pipeline cfg' collab' st' req').term = .notFound → ¬ matchesSomeRoute req') := by
  have hmg : matchGroup req.path = none := by
    cases hm : matchGroup req.path with
    | none => rfl
    | some g => exact absurd (Or.inl (by rw [hm]; rfl)) hnm
  have hall := List.find?_eq_none.mp hmg
  have hup : startsWithSeg req.path "/api/upload" = false := by
    have := hall "/api/upload" (by simp [routeGroups])
    simpa using this
  have hsum : startsWithSeg req.path "/api/summarize" = false := by
    have := hall "/api/summarize" (by simp [routeGroups])
    simpa using this
  have hpdf : startsWithSeg req.path "/api/pdf" = false := by
    have := hall "/api/pdf" (by simp [routeGroups])
    simpa using this
  have hheavy : (startsWithSeg req.path "/api/summarize"
      || startsWithSeg req.path "/api/pdf") = false := by simp [hsum, hpdf]
  have hba : bodyAdmit req.bodySize = true := by
    simp only [bodyAdmit, Bool.not_eq_true', decide_eq_false_iff_not]
    omega
  have hbp := bodyStage_pass cfg collab req initResp hba
  have hru := routeStage_unmatched cfg collab req initResp hnm
  have hP := pipeline_ok cfg collab st req hc
  have hthird : ∀ (cfg' : Config) (collab' : String → CollabOutcome) (st' : RateState)
      (req' : Request),
      (pipeline cfg' collab' st' req').term = .notFound → ¬ matchesSomeRoute req' := by
    intro cfg' collab' st' req' hterm
    have h1 : (pipeline cfg' collab' st' req').term ≠ .origin := by rw [hterm]; simp
    have h2 : (pipeline cfg' collab' st' req').term ≠ .rateLimit := by rw [hterm]; simp
    obtain ⟨_, _, _, _, _, c6⟩ := pipeline_reaches_dispatch cfg' collab' st' req' h1 h2
    rw [hterm] at c6
    by_cases hba' : bodyAdmit req'.bodySize = true
    · rw [bodyStage_pass cfg' collab' req' initResp hba'] at c6
      exact routeStage_notFound cfg' collab' req' initResp c6.symm
    · have hba'' : bodyAdmit req'.bodySize = false := by simpa using hba'
      rw [bodyStage_reject cfg' collab' req' initResp hba''] at c6
      simp at c6
  by_cases hga : startsWithSeg req.path "/api" = true
  · have hG := generalStage_pass cfg collab st req initResp hga (hgen hga)
    have hcl := classStage_other cfg collab (stAfterGen cfg st req) req initResp hup hheavy
    refine ⟨?_, ?_, hthird⟩
    · rw [hP]
      show (generalLimiterStage cfg collab st req initResp).1 = _
      rw [hG, hcl]
      show (bodyStage cfg collab req initResp).1 = _
      rw [hbp, hru]
      rfl
    · rw [hP]
      show (generalLimiterStage cfg collab st req initResp).2.1 = _
      rw [hG, hcl]
      show (bodyStage cfg collab req initResp).2 = _
      rw [hbp, hru]
  · have hga' : startsWithSeg req.path "/api" = false := by simpa using hga
    have hG := generalStage_skip cfg collab st req initResp hga'
    have hcl := classStage_other cfg collab st req initResp hup hheavy
    refine ⟨?_, ?_, hthird⟩
    · rw [hP]
      show (generalLimiterStage cfg collab st req initResp).1 = _
      rw [hG, hcl]
      show (bodyStage cfg collab req initResp).1 = _
      rw [hbp, hru]
      rfl
    · rw [hP]
      show (generalLimiterStage cfg collab st req initResp).2.1 = _
      rw [hG, hcl]
      show (bodyStage cfg collab req initResp).2 = _
      rw [hbp, hru]

theorem notFound_terminal_witness :
    (pipeline ⟨none, none, 60, 100, 60, 100, 60, 100⟩ (fun _ => .success 200 "ok")
      ⟨fun _ => ⟨0, 0⟩, fun _ => ⟨0, 0⟩, fun _ => ⟨0, 0⟩⟩
      ⟨"GET", "/nope", none, "c", 0, 0⟩).resp =
      { status := 404, headers := securityHeaders,
        body := .errJson ⟨"Endpoint not found", none⟩ } ∧
    (pipeline ⟨none, none, 60, 100, 60, 100, 60, 100⟩ (fun _ => .success 200 "ok")
      ⟨fun _ => ⟨0, 0⟩, fun _ => ⟨0, 0⟩, fun _ => ⟨0, 0⟩⟩
      ⟨"GET", "/nope", none, "c", 0, 0⟩).term = .notFound :=
  ⟨(notFound_terminal ⟨none, none, 60, 100, 60, 100, 60, 100⟩ (fun _ => .success 200 "ok")
      ⟨fun _ => ⟨0, 0⟩, fun _ => ⟨0, 0⟩, fun _ => ⟨0, 0⟩⟩
      ⟨"GET", "/nope", none, "c", 0, 0⟩ rfl (fun _ => rfl) (by decide) (by decide)).1,
   (notFound_terminal ⟨none, none, 60, 100, 60, 100, 60, 100⟩ (fun _ => .success 200 "ok")
      ⟨fun _ => ⟨0, 0⟩, fun _ => ⟨0, 0⟩, fun _ => ⟨0, 0⟩⟩
      ⟨"GET", "/nope", none, "c", 0, 0⟩ rfl (fun _ => rfl) (by decide) (by decide)).2.1⟩

/-- C10: every request under /api must be admitted by the general limiter
(a general rejection short-circuits with a rate-limit response, and this
includes /api/health); reaching a route handler or route failure requires
admission by the general limiter and by the class-specific limiter of the
path; and a class-specific rejection occurs even when the general limiter
admitted, so the class limiters stack on top of the general one. -/
theorem rateLimiter_stacking (cfg : Config) (collab : String → CollabOutcome)
    (st : RateState) (req : Request) :
    (corsDecision (allowedOriginsOf cfg.corsOriginEnv) req.origin = .ok () →
      startsWithSeg req.path "/api" = true → genAdmit cfg st req = false →
      (pipeline cfg collab st req).term = .rateLimit ∧
      (pipeline cfg collab st req).resp = rateLimitResp initResp) ∧
    ((pipeline cfg collab st req).term = .route ∨
      (pipeline cfg collab st req).term = .routeError →
      (startsWithSeg req.path "/api" = true → genAdmit cfg st req = true) ∧
      (startsWithSeg req.path "/api/upload" = true → upAdmit cfg st req = true) ∧
      (startsWithSeg req.path "/api/upload" = false →
        (startsWithSeg req.path "/api/summarize"
          || startsWithSeg req.path "/api/pdf") = true →
        apiAdmit cfg st req = true)) ∧
    (req.path = "/api/health" → (pipeline cfg collab st req).term = .health →
      genAdmit cfg st req = true) ∧
    (corsDecision (allowedOriginsOf cfg.corsOriginEnv) req.origin = .ok () →
      startsWithSeg req.path "/api/upload" = true → genAdmit cfg st req = true →
      upAdmit cfg st req = false → (pipeline cfg collab st req).term = .rateLimit) ∧
    (corsDecision (allowedOriginsOf cfg.corsOriginEnv) req.origin = .ok () →
      startsWithSeg req.path "/api/upload" = false →
      (startsWithSeg req.path "/api/summarize"
        || startsWithSeg req.path "/api/pdf") = true →
      genAdmit cfg st req = true → apiAdmit cfg st req = false →
      (pipeline cfg collab st req).term = .rateLimit) := by
  refine ⟨fun hc hga hrej => ?_, fun hd => ?_, fun hpath hterm => ?_,
    fun hc hup hgen hrej => ?_, fun hc hup hh hgen hrej => ?_⟩
  · have hP := pipeline_ok cfg collab st req hc
    have hG := generalStage_reject cfg collab st req initResp hga hrej
    constructor
    · rw [hP]
      show (generalLimiterStage cfg collab st req initResp).2.1 = _
      rw [hG]
    · rw [hP]
      show (generalLimiterStage cfg collab st req initResp).1 = _
      rw [hG]
  · have h1 : (pipeline cfg collab st req).term ≠ .origin := by
      rcases hd with h | h <;> rw [h] <;> simp
    have h2 : (pipeline cfg collab st req).term ≠ .rateLimit := by
      rcases hd with h | h <;> rw [h] <;> simp
    obtain ⟨_, c2, c3, c4, _, _⟩ := pipeline_reaches_dispatch cfg collab st req h1 h2
    exact ⟨c2, c3, c4⟩
  · have h1 : (pipeline cfg collab st req).term ≠ .origin := by rw [hterm]; simp
    have h2 : (pipeline cfg collab st req).term ≠ .rateLimit := by rw [hterm]; simp
    obtain ⟨_, c2, _, _, _, _⟩ := pipeline_reaches_dispatch cfg collab st req h1 h2
    exact c2 (by rw [hpath]; decide)
  · have hga : startsWithSeg req.path "/api" = true :=
      seg_under_api req.path "/api/upload" "upload/" (by decide) (by decide) hup
    have hP := pipeline_ok cfg collab st req hc
    have hG := generalStage_pass cfg collab st req initResp hga hgen
    have hrej' : upAdmit cfg (stAfterGen cfg st req) req = false := by
      rw [upAdmit_stAfterGen]
      exact hrej
    rw [hP]
    show (generalLimiterStage cfg collab st req initResp).2.1 = _
    rw [hG]
    exact (classStage_upload_reject cfg collab (stAfterGen cfg st req) req initResp
      hup hrej').2
  · have hga : startsWithSeg req.path "/api" = true := seg_heavy_api req.path hh
    have hP := pipeline_ok cfg collab st req hc
    have hG := generalStage_pass cfg collab st req initResp hga hgen
    have hrej' : apiAdmit cfg (stAfterGen cfg st req) req = false := by
      rw [apiAdmit_stAfterGen]
      exact hrej
    rw [hP]
    show (generalLimiterStage cfg collab st req initResp).2.1 = _
    rw [hG]
    exact (classStage_heavy_reject cfg collab (stAfterGen cfg st req) req initResp
      hup hh hrej').2

theorem rateLimiter_stacking_witness :
    (pipeline ⟨none, none, 60, 5, 60, 100, 60, 100⟩ (fun _ => .success 200 "ok")
      ⟨fun _ => ⟨5, 0⟩, fun _ => ⟨0, 0⟩, fun _ => ⟨0, 0⟩⟩
      ⟨"GET", "/api/health", none, "c", 0, 10⟩).term = .rateLimit ∧
    (pipeline ⟨none, none, 60, 100, 60, 3, 60, 100⟩ (fun _ => .success 200 "ok")
      ⟨fun _ => ⟨0, 0⟩, fun _ => ⟨3, 0⟩, fun _ => ⟨0, 0⟩⟩
      ⟨"POST", "/api/upload", none, "c", 0, 10⟩).term = .rateLimit :=
  ⟨((rateLimiter_stacking ⟨none, none, 60, 5, 60, 100, 60, 100⟩ (fun _ => .success 200 "ok")
      ⟨fun _ => ⟨5, 0⟩, fun _ => ⟨0, 0⟩, fun _ => ⟨0, 0⟩⟩
      ⟨"GET", "/api/health", none, "c", 0, 10⟩).1 rfl (by decide) (by decide)).1,
   (rateLimiter_stacking ⟨none, none, 60, 100, 60, 3, 60, 100⟩ (fun _ => .success 200 "ok")
      ⟨fun _ => ⟨0, 0⟩, fun _ => ⟨3, 0⟩, fun _ => ⟨0, 0⟩⟩
      ⟨"POST", "/api/upload", none, "c", 0, 10⟩).2.2.2.1 rfl (by decide) (by decide)
      (by decide)⟩

end AiMeet
